import Mathlib

/-!
# Verification of the FKS Execution API service

Shallow embedding of `src/services/execution/src/main.rs`, a minimal HTTP
service with a health endpoint and a trading-signal endpoint.

Modelling conventions:
* `f64` price values are modelled as `ℚ` (the computations involved are a
  sum and a division by a small positive integer, exact in `ℚ`).
* A monotonic clock (`Instant`) is modelled as a `ℕ` timestamp in
  milliseconds; `elapsed().as_secs()` becomes truncating division by 1000.
* The 5 ms `tokio::time::sleep` inside `build_signal` is modelled by an
  explicit `sleepMillis` constant; any further wall-clock delay the handler
  experiences is an arbitrary `extra : ℕ` of milliseconds, so the measured
  latency is `sleepMillis + extra`.
* The post-shutdown idle loop of `main` is modelled as a step function on a
  two-state loop automaton.
-/

namespace FksExecution

/-- Rust `Option::zip`: `Some(a).zip(Some(b)) = Some((a, b))`, else `None`. -/
def Option.zip {α β : Type} : Option α → Option β → Option (α × β)
  | some a, some b => some (a, b)
  | _, _ => none

/-- Outbound payload `struct Signal` of the signal endpoints. -/
structure Signal where
  symbol : String
  rsi : ℚ
  ema : ℚ
  risk_allowance : ℚ
  latency_ms : ℕ
  deriving Repr, DecidableEq

/-- Inbound body `struct SignalRequest`: both fields optional. -/
structure SignalRequest where
  symbol : Option String
  prices : Option (List ℚ)
  deriving Repr, DecidableEq

/-- Outbound payload `struct Health`. -/
structure Health where
  service : String
  status : String
  deriving Repr, DecidableEq

/-- `struct AppState { start: Instant }`: the process start timestamp
(milliseconds on the monotonic clock), immutable after construction. -/
structure AppState where
  start : ℕ
  deriving Repr, DecidableEq

/-- The fixed 5-element fallback price series from `build_signal`. -/
def defaultPrices : List ℚ := [4420, 4422, 4419.5, 4425, 4424]

/-- The fallback symbol from `build_signal`. -/
def defaultSymbol : String := "ES"

/-- Duration of the artificial `tokio::time::sleep` in `build_signal`,
in milliseconds. -/
def sleepMillis : ℕ := 5

/-- The `match input` at the top of `build_signal`: a provided pair is kept
only when its price list is non-empty; every other shape of input is
replaced by the full default pair. -/
def select_input (input : Option (String × List ℚ)) : String × List ℚ :=
  match input with
  | some (sym, p) => if !p.isEmpty then (sym, p) else (defaultSymbol, defaultPrices)
  | none => (defaultSymbol, defaultPrices)

/-- `build_signal`: computes the Signal payload. `extra` is the wall-clock
time in milliseconds the handler takes beyond the 5 ms sleep, so
`latency_ms = sleepMillis + extra` models `start.elapsed().as_millis()`. -/
def build_signal (input : Option (String × List ℚ)) (extra : ℕ) : Signal :=
  let sp := select_input input
  { symbol := sp.1
    rsi := 55
    ema := sp.2.sum / (sp.2.length : ℚ)
    risk_allowance := 150000 * (1 / 100)
    latency_ms := sleepMillis + extra }

/-- `get_signal_handler`: GET has no body, so `build_signal` is called with
`None`. -/
def get_signal_handler (extra : ℕ) : Signal :=
  build_signal none extra

/-- `post_signal_handler`: zips the two optional fields, so the provided
values reach `build_signal` only when both are present. -/
def post_signal_handler (req : SignalRequest) (extra : ℕ) : Signal :=
  build_signal (Option.zip req.symbol req.prices) extra

/-- `health_handler`: reads `AppState.start`, computes elapsed whole
seconds from the current monotonic-clock reading `now` (milliseconds),
and embeds it in the service string. -/
def health_handler (state : AppState) (now : ℕ) : Health :=
  let uptime := (now - state.start) / 1000
  { service := "fks-execution|uptime=" ++ toString uptime ++ "s"
    status := "healthy" }

/-- The uptime in whole seconds embedded by `health_handler`. -/
def health_uptime (state : AppState) (now : ℕ) : ℕ :=
  (now - state.start) / 1000

/-- POSIX signals relevant to `shutdown_signal`. -/
inductive UnixSignal
  | sigint
  | sigterm
  deriving Repr, DecidableEq

/-- `shutdown_signal` races a Ctrl+C (SIGINT) listener against a SIGTERM
listener and resolves when either fires: both signals are graceful-shutdown
triggers. -/
def shutdown_signal_resolves : UnixSignal → Bool
  | .sigint => true
  | .sigterm => true

/-- State of the trailing `loop { sleep(3600s) }` in `main`. -/
inductive LoopState
  | looping
  | terminated
  deriving Repr, DecidableEq

/-- One iteration of the post-select idle loop in `main`: sleep one hour,
then continue the loop. The loop body has no break, return or exit, so a
looping state steps to itself. -/
def idle_loop_step : LoopState → LoopState
  | .looping => .looping
  | .terminated => .terminated

/-- The process state `n` loop iterations after the `tokio::select!` in
`main` completes (by shutdown signal or server termination): `main` logs
and enters the idle loop in the `looping` state. -/
def main_after_select (n : ℕ) : LoopState :=
  idle_loop_step^[n] LoopState.looping

/-- Errors of the startup phase of `main`. -/
inductive StartupError
  | addrParseFailed (msg : String)
  | bindFailed (msg : String)
  deriving Repr, DecidableEq

/-- An abstract parsed socket address. -/
structure SocketAddr where
  host : String
  port : ℕ
  deriving Repr, DecidableEq

/-- Result of the startup phase of `main`: either an early `return Err(e)`
(before the serve loop), or the serve phase is entered with the bound
address. -/
inductive StartupResult
  | exited (e : StartupError)
  | serving (addr : SocketAddr)
  deriving Repr, DecidableEq

/-- The startup phase of `main`: parse the listen address (early-returning
the parse error), bind the listener (early-returning the bind error), and
only then enter the serve loop. The outcomes of the environment-dependent
`parse` and `bind` steps are parameters. -/
def main_startup (parse : Except String SocketAddr)
    (bind : SocketAddr → Except String Unit) : StartupResult :=
  match parse with
  | .error e => .exited (.addrParseFailed e)
  | .ok addr =>
    match bind addr with
    | .error e => .exited (.bindFailed e)
    | .ok _ => .serving addr

/-- Process exit code of `main`, an `anyhow::Result`: `Err` exits non-zero. -/
def startup_exit_code : StartupResult → ℕ
  | .exited _ => 1
  | .serving _ => 0

/-- An HTTP response of this service. -/
inductive HttpResponse
  | ok (s : Signal)
  | okHealth (h : Health)
  | clientError (code : ℕ)
  deriving Repr, DecidableEq

/-- Modelled from the spec: the JSON decoding layer of the underlying HTTP
framework (the `Json` extractor) is not part of this repository; per the
spec it rejects a malformed POST body with a 422-class client error before
the handler runs. A body is modelled as `none` when it fails to decode. -/
def json_decode_body (body : Option SignalRequest) :
    Except ℕ SignalRequest :=
  match body with
  | none => .error 422
  | some req => .ok req

/-- A request dispatched by the router. `now`/`extra` carry the clock
readings of the moment the request is handled. -/
inductive Request
  | getHealth (now : ℕ)
  | getSignal (extra : ℕ)
  | postSignal (body : Option SignalRequest) (extra : ℕ)
  deriving Repr, DecidableEq

/-- Router dispatch: method+path to handler. `AppState` is read-only and no
handler mutates it, so handling returns only the response. -/
def handle (state : AppState) : Request → HttpResponse
  | .getHealth now => .okHealth (health_handler state now)
  | .getSignal extra => .ok (get_signal_handler extra)
  | .postSignal body extra =>
    match json_decode_body body with
    | .error c => .clientError c
    | .ok req => .ok (post_signal_handler req extra)

/-- Serving a sequence of requests: the state is immutable, so the server
is a map over the request list. -/
def serve (state : AppState) (reqs : List Request) : List HttpResponse :=
  reqs.map (handle state)

end FksExecution

namespace FksExecution

/-- Helper: the idle loop never leaves the `looping` state. -/
theorem main_after_select_looping (n : ℕ) :
    main_after_select n = LoopState.looping := by
  induction n with
  | zero => rfl
  | succ k ih =>
    unfold main_after_select at ih ⊢
    rw [Function.iterate_succ_apply, show idle_loop_step LoopState.looping = LoopState.looping from rfl]
    exact ih

/-- Claim C1: for every POST /execute/signal body supplying a symbol and a
non-empty prices sequence P, the returned Signal's `ema` field equals
`sum(P) / len(P)`, the arithmetic mean of P. -/
theorem post_ema_is_mean (s : String) (p : List ℚ) (extra : ℕ) (h : p ≠ []) :
    (post_signal_handler ⟨some s, some p⟩ extra).ema = p.sum / (p.length : ℚ) := by
  simp [post_signal_handler, build_signal, select_input, Option.zip, h]

/-- Witness for C1: POST with symbol "NQ" and prices `[100, 200, 300]`
returns `ema = 200`. -/
theorem post_ema_is_mean_witness :
    (post_signal_handler ⟨some "NQ", some [100, 200, 300]⟩ 0).ema = 200 := by
  rw [post_ema_is_mean "NQ" [100, 200, 300] 0 (List.cons_ne_nil _ _)]
  norm_num

/-- Claim C2: provided request values are used only when both `symbol` and a
non-empty `prices` are present; any partial input (symbol without prices,
prices without symbol, or empty prices) falls back to the full default pair,
including symbol "ES" — so POST `{"symbol":"NQ"}` returns symbol "ES". -/
theorem post_partial_input_full_defaults (req : SignalRequest) (extra : ℕ) :
    ((req.symbol = none ∨ req.prices = none ∨ req.prices = some []) →
      post_signal_handler req extra = build_signal none extra ∧
      (post_signal_handler req extra).symbol = "ES") ∧
    (∀ s p, req.symbol = some s → req.prices = some p → p ≠ [] →
      (post_signal_handler req extra).symbol = s ∧
      (post_signal_handler req extra).ema = p.sum / (p.length : ℚ)) := by
  obtain ⟨sym, pr⟩ := req
  constructor
  · intro h
    cases sym <;> cases pr <;>
      simp_all [post_signal_handler, build_signal, select_input, Option.zip,
        defaultSymbol]
  · rintro s p hs hp hne
    simp only at hs hp
    subst hs; subst hp
    simp [post_signal_handler, build_signal, select_input, Option.zip, hne]

/-- Witness for C2: POST with body `{"symbol":"NQ"}` (no prices) returns
symbol "ES", not "NQ". -/
theorem post_partial_input_full_defaults_witness :
    (post_signal_handler ⟨some "NQ", none⟩ 0).symbol = "ES" :=
  ((post_partial_input_full_defaults ⟨some "NQ", none⟩ 0).1
    (Or.inr (Or.inl rfl))).2

/-- Claim C3: whenever `prices` is omitted or empty — including every
GET /execute/signal request — the response carries the fixed default
signal: symbol "ES", `ema` = mean of `[4420, 4422, 4419.5, 4425, 4424]`
= 4422.1, `rsi` = 55, `risk_allowance` = 1500. -/
theorem default_signal_values (extra : ℕ) (req : SignalRequest) :
    ((get_signal_handler extra).symbol = "ES" ∧
      (get_signal_handler extra).ema =
        defaultPrices.sum / (defaultPrices.length : ℚ) ∧
      (get_signal_handler extra).ema = 4422.1 ∧
      (get_signal_handler extra).rsi = 55 ∧
      (get_signal_handler extra).risk_allowance = 1500) ∧
    ((req.prices = none ∨ req.prices = some []) →
      post_signal_handler req extra = get_signal_handler extra) := by
  refine ⟨⟨?_, ?_, ?_, ?_, ?_⟩, ?_⟩
  · rfl
  · rfl
  · show defaultPrices.sum / (defaultPrices.length : ℚ) = 4422.1
    norm_num [defaultPrices]
  · rfl
  · show (150000 : ℚ) * (1 / 100) = 1500
    norm_num
  · rintro (h | h) <;>
      obtain ⟨sym, pr⟩ := req <;> subst h <;> cases sym <;>
      simp [post_signal_handler, get_signal_handler, build_signal,
        select_input, Option.zip]

/-- Witness for C3: evaluating at `extra = 0` and the body
`{"symbol":"NQ"}` with prices absent. -/
theorem default_signal_values_witness :
    (get_signal_handler 0).ema = 4422.1 ∧
    post_signal_handler ⟨some "NQ", none⟩ 0 = get_signal_handler 0 :=
  ⟨(default_signal_values 0 ⟨some "NQ", none⟩).1.2.2.1,
   (default_signal_values 0 ⟨some "NQ", none⟩).2 (Or.inl rfl)⟩

/-- Claim C4: for every input to the signal computation, the returned
Signal has `rsi` = 55 and `risk_allowance` = 1500, the latter computed as
1% of the hardcoded 150000 notional. -/
theorem rsi_and_risk_constant (input : Option (String × List ℚ)) (extra : ℕ) :
    (build_signal input extra).rsi = 55 ∧
    (build_signal input extra).risk_allowance = 150000 * (1 / 100) ∧
    (build_signal input extra).risk_allowance = 1500 := by
  refine ⟨rfl, rfl, ?_⟩
  show (150000 : ℚ) * (1 / 100) = 1500
  norm_num

/-- Claim C5: both SIGINT and SIGTERM resolve the graceful-shutdown race,
after which `main` enters the idle loop; no number of loop iterations ever
reaches a terminated state, so the process never exits on its own. -/
theorem shutdown_never_exits (s : UnixSignal) (n : ℕ) :
    shutdown_signal_resolves s = true ∧
    main_after_select n = LoopState.looping ∧
    main_after_select n ≠ LoopState.terminated := by
  refine ⟨by cases s <;> rfl, main_after_select_looping n, ?_⟩
  rw [main_after_select_looping n]
  intro h
  exact LoopState.noConfusion h

/-- Claim C6: an address-parse failure makes `main` return that parse error
with a non-zero exit before the serve loop; a bind failure likewise returns
the bind error with a non-zero exit before the serve loop. -/
theorem startup_errors_exit_nonzero (e eb : String)
    (bind : SocketAddr → Except String Unit) (addr : SocketAddr) :
    (main_startup (.error e) bind = .exited (.addrParseFailed e) ∧
      startup_exit_code (main_startup (.error e) bind) ≠ 0 ∧
      ∀ a, main_startup (.error e) bind ≠ .serving a) ∧
    (bind addr = .error eb →
      main_startup (.ok addr) bind = .exited (.bindFailed eb) ∧
      startup_exit_code (main_startup (.ok addr) bind) ≠ 0 ∧
      ∀ a, main_startup (.ok addr) bind ≠ .serving a) := by
  constructor
  · exact ⟨rfl, by simp [main_startup, startup_exit_code],
      fun a h => by simp [main_startup] at h⟩
  · intro hb
    refine ⟨?_, ?_, ?_⟩ <;> simp [main_startup, startup_exit_code, hb]

/-- Witness for C6: a concrete failing bind environment. -/
theorem startup_errors_exit_nonzero_witness :
    main_startup (.ok ⟨"0.0.0.0", 4700⟩)
        (fun _ => .error "address in use") =
      .exited (.bindFailed "address in use") :=
  ((startup_errors_exit_nonzero "bad addr" "address in use"
      (fun _ => .error "address in use") ⟨"0.0.0.0", 4700⟩).2 rfl).1

/-- Claim C7: GET /health always succeeds, returns status exactly "healthy"
and a service string embedding the uptime in whole seconds derived from
`AppState.start`; across calls within one process lifetime the uptime is
non-decreasing (and, as a natural number, non-negative). -/
theorem health_healthy_and_monotone (state : AppState) (now now1 now2 : ℕ) :
    (health_handler state now).status = "healthy" ∧
    (health_handler state now).service =
      "fks-execution|uptime=" ++ toString (health_uptime state now) ++ "s" ∧
    (now1 ≤ now2 → health_uptime state now1 ≤ health_uptime state now2) := by
  refine ⟨rfl, rfl, fun h => ?_⟩
  exact Nat.div_le_div_right (Nat.sub_le_sub_right h state.start)

/-- Witness for C7: two concrete clock readings 1000 ms apart. -/
theorem health_healthy_and_monotone_witness :
    (health_handler ⟨0⟩ 1000).status = "healthy" ∧
    health_uptime ⟨0⟩ 1000 ≤ health_uptime ⟨0⟩ 2000 :=
  ⟨(health_healthy_and_monotone ⟨0⟩ 1000 1000 2000).1,
   (health_healthy_and_monotone ⟨0⟩ 1000 1000 2000).2.2 (by norm_num)⟩

/-- Claim C8: for both GET and POST /execute/signal, `latency_ms` is always
at least 5, because the handler sleeps 5 ms before measuring the elapsed
time since it started. -/
theorem latency_at_least_five (extra : ℕ) (req : SignalRequest) :
    5 ≤ (get_signal_handler extra).latency_ms ∧
    5 ≤ (post_signal_handler req extra).latency_ms := by
  constructor <;>
    simp [get_signal_handler, post_signal_handler, build_signal, sleepMillis]

/-- Claim C9: a malformed JSON body on POST yields a 422 client error
(400-class) from the decoding layer; the failure is request-scoped — the
application state is immutable, so the responses to all subsequent requests
are exactly those the server would produce anyway. -/
theorem malformed_json_client_error (state : AppState) (extra : ℕ)
    (rest : List Request) :
    handle state (.postSignal none extra) = .clientError 422 ∧
    (400 ≤ 422 ∧ 422 < 500) ∧
    serve state (Request.postSignal none extra :: rest) =
      HttpResponse.clientError 422 :: serve state rest := by
  refine ⟨rfl, by norm_num, ?_⟩
  simp [serve, handle, json_decode_body]

/-- Claim C10: the price list selected by the signal computation is
non-empty for every possible input — empty or absent input is replaced by
the fixed 5-element default series — so the mean's divisor is the list
length, which is never zero. -/
theorem selected_prices_nonempty (input : Option (String × List ℚ))
    (extra : ℕ) :
    (select_input input).2 ≠ [] ∧
    0 < (select_input input).2.length ∧
    (build_signal input extra).ema =
      (select_input input).2.sum / ((select_input input).2.length : ℚ) := by
  have hne : (select_input input).2 ≠ [] := by
    match input with
    | none => simp [select_input, defaultPrices]
    | some (s, p) =>
      by_cases hp : p.isEmpty <;>
        simp [select_input, hp, defaultPrices]
      exact List.ne_nil_of_length_pos (by simp [List.isEmpty_iff] at hp ⊢; exact List.length_pos.mpr hp)
  exact ⟨hne, List.length_pos.mpr hne, rfl⟩

end FksExecution
